import Mathlib

/-!
Verification of the TFBVerifier specification against a shallow embedding of
its Rust source.  Each section embeds the data model and functions of one part
of the program (`src/verification.rs`, `src/test_type/...`, `src/database/...`)
as executable Lean definitions, and the theorems at the end of the file settle
the frozen claims C1..C10 about those definitions.

Conventions used throughout:
* Rust `String` is Lean `String`; byte-level operations are made explicit.
* Side effects (HTTP fetches, database counter reads, thread scheduling) are
  passed in as explicit parameters or modelled as step relations.
* Machine integers are `Int`/`Nat` with explicit wrap-around where the source
  can overflow.
-/

set_option linter.unusedVariables false

namespace TFB

/-! ## Messages accumulator (`src/verification.rs`) -/

/-- Record stored by `Messages::error` / `Messages::warning` (the Rust structs
`Error` and `Warning` in `src/verification.rs` have identical shape: fields
`body`, `url`, `headers`, `message`). -/
structure MsgRecord where
  body : String
  url : String
  headers : String
  message : String
deriving DecidableEq

/-- Kind tag of a structured line emitted to stdout by `send_error` /
`send_warning` in `src/verification.rs`. -/
inductive EmitKind where
  | error
  | warning
deriving DecidableEq

/-- One structured line emitted to stdout (the serialized
`{"error": {"message": .., "short_message": ..}}` object). -/
structure Emit where
  kind : EmitKind
  message : String
  short_message : String
deriving DecidableEq

/-- The `Messages` accumulator of `src/verification.rs`.  The extra `emitted`
field records the stdout side channel written by `send_error`/`send_warning`
(the stored records do not carry the short label; only the emitted lines do). -/
structure Messages where
  warnings : List MsgRecord
  errors : List MsgRecord
  url : String
  body : String
  headers : String
  emitted : List Emit
deriving DecidableEq

/-- Embeds `Messages::default()`. -/
def Messages.default : Messages :=
  { warnings := [], errors := [], url := "", body := "", headers := "", emitted := [] }

/-- Embeds `Messages::new(url)`. -/
def Messages.new (url : String) : Messages :=
  { warnings := [], errors := [], url := url, body := "", headers := "", emitted := [] }

/-- Embeds `Messages::body(&mut self, body)` (setter; named `setBody` because
the Lean field is already called `body`). -/
def Messages.setBody (self : Messages) (body : String) : Messages :=
  { self with body := body }

/-- Embeds `Messages::headers(&mut self, headers)` with the serialized header
string passed in directly (the source serializes the header map first). -/
def Messages.setHeaders (self : Messages) (headers : String) : Messages :=
  { self with headers := headers }

/-- Embeds `Messages::error`: emits a structured error line and pushes an
`Error` record capturing the current url/body/headers context. -/
def Messages.error (self : Messages) (message short_message : String) : Messages :=
  { self with
    errors := self.errors ++ [⟨self.body, self.url, self.headers, message⟩]
    emitted := self.emitted ++ [⟨EmitKind.error, message, short_message⟩] }

/-- Embeds `Messages::warning`: emits a structured warning line and pushes a
`Warning` record capturing the current url/body/headers context. -/
def Messages.warning (self : Messages) (message short_message : String) : Messages :=
  { self with
    warnings := self.warnings ++ [⟨self.body, self.url, self.headers, message⟩]
    emitted := self.emitted ++ [⟨EmitKind.warning, message, short_message⟩] }

/-- True when some emitted error line carries the given short label. -/
def Messages.emittedErrorShort (self : Messages) (short : String) : Prop :=
  ∃ e ∈ self.emitted, e.kind = EmitKind.error ∧ e.short_message = short

instance (m : Messages) (s : String) : Decidable (m.emittedErrorShort s) := by
  unfold Messages.emittedErrorShort
  infer_instance

/-- True when some emitted warning line carries the given short label. -/
def Messages.emittedWarningShort (self : Messages) (short : String) : Prop :=
  ∃ e ∈ self.emitted, e.kind = EmitKind.warning ∧ e.short_message = short

instance (m : Messages) (s : String) : Decidable (m.emittedWarningShort s) := by
  unfold Messages.emittedWarningShort
  infer_instance

/-- ASCII lowercasing of one character. -/
def asciiLower (c : Char) : Char :=
  if 'A' ≤ c ∧ c ≤ 'Z' then Char.ofNat (c.toNat + 32) else c

/-- Model of Rust `str::to_lowercase` (kernel-reducible; agrees with the
Unicode-aware Rust function on ASCII data, which is all the embedded call
sites compare against). -/
def rustToLower (s : String) : String :=
  String.mk (s.data.map asciiLower)

/-! ## Query-count clamp (`src/test_type/query/mod.rs`) -/

/-- Decimal value of an ASCII digit character, or `none`. -/
def digitVal (c : Char) : Option ℕ :=
  if '0' ≤ c ∧ c ≤ '9' then some (c.toNat - '0'.toNat) else none

/-- Accumulates a decimal digit string left to right; fails on any non-digit. -/
def parseNatDigitsAux : List Char → ℕ → Option ℕ
  | [], acc => some acc
  | c :: cs, acc =>
    match digitVal c with
    | some d => parseNatDigitsAux cs (acc * 10 + d)
    | none => none

/-- Embeds Rust `i32::from_str`: an optional sign followed by at least one
decimal digit, rejecting values outside `[-2^31, 2^31)` (Rust reports overflow
as a parse error). -/
def i32_from_str (s : String) : Option ℤ :=
  match s.data with
  | [] => none
  | '+' :: cs =>
    match cs with
    | [] => none
    | _ :: _ =>
      (parseNatDigitsAux cs 0).bind fun n =>
        if (n : ℤ) ≤ 2147483647 then some (n : ℤ) else none
  | '-' :: cs =>
    match cs with
    | [] => none
    | _ :: _ =>
      (parseNatDigitsAux cs 0).bind fun n =>
        if (n : ℤ) ≤ 2147483648 then some (-(n : ℤ)) else none
  | cs =>
    (parseNatDigitsAux cs 0).bind fun n =>
      if (n : ℤ) ≤ 2147483647 then some (n : ℤ) else none

/-- Embeds `Query::translate_query_count` from `src/test_type/query/mod.rs`. -/
def translate_query_count (query_string : String) (lo hi : ℤ) : ℤ :=
  match i32_from_str query_string with
  | some queries =>
    if queries > hi then hi
    else if queries < lo then lo
    else queries
  | none => lo

/-! ## Test-type dispatch (`src/test_type/mod.rs`, `src/database/mod.rs`) -/

/-- The `Database` enum of `src/database/mod.rs` (strum, lowercase serialization). -/
inductive Database where
  | Mysql
  | Postgres
  | Mongodb
deriving DecidableEq

/-- Embeds strum's generated `Database::from_str` (lowercase tag match). -/
def Database.from_str (s : String) : Option Database :=
  if s = "mysql" then some Database.Mysql
  else if s = "postgres" then some Database.Postgres
  else if s = "mongodb" then some Database.Mongodb
  else none

/-- Embeds `Database::get`: lowercases the name, matches the enum, and on
failure returns the `InvalidDatabaseType` error (modelled as `none`). -/
def Database.get (database_name : String) : Option Database :=
  Database.from_str (rustToLower database_name)

/-- The `TestType` enum of `src/test_type/mod.rs`. -/
inductive TestType where
  | Json
  | SingleQuery
  | CachedQuery
  | MultiQuery
  | Fortune
  | Update
  | Plaintext
  | Unknown (name : String)
deriving DecidableEq

/-- Embeds strum's generated `TestType::from_str` with the legacy aliases
`db` and `query` (`cached_query` serialized explicitly). -/
def TestType.from_str (s : String) : Option TestType :=
  if s = "json" then some TestType.Json
  else if s = "db" then some TestType.SingleQuery
  else if s = "cached_query" then some TestType.CachedQuery
  else if s = "query" then some TestType.MultiQuery
  else if s = "fortune" then some TestType.Fortune
  else if s = "update" then some TestType.Update
  else if s = "plaintext" then some TestType.Plaintext
  else none

/-- Embeds `TestType::get`: unrecognized names degrade to `Unknown(name)`. -/
def TestType.get (test_type_name : String) : TestType :=
  match TestType.from_str (rustToLower test_type_name) with
  | some t => t
  | none => TestType.Unknown test_type_name

/-- Shallow model of the boxed `Executor` trait objects built by
`TestType::get_executor`, keeping the owned state of each concrete verifier. -/
inductive Executor where
  | json (concurrency_levels : List ℕ)
  | singleQuery (database : Database) (concurrency_levels : List ℕ)
  | multiQuery (database : Database) (concurrency_levels : List ℕ)
  | cachedQuery (database : Database) (concurrency_levels : List ℕ)
  | fortune (database : Database) (concurrency_levels : List ℕ)
  | updates (database : Database) (concurrency_levels : List ℕ)
  | plaintext (pipeline_concurrency_levels : List ℕ)
  | unknown (database : Database) (test_type : String)
deriving DecidableEq

/-- Outcome of Rust code that may return `Err` (propagated by `?`) or panic
(`Option::unwrap` on `None`). -/
inductive ROutcome (α : Type) where
  | ok (value : α)
  | err
  | panicked
deriving DecidableEq

/-- Maps over the `ok` case. -/
def ROutcome.map (f : α → β) : ROutcome α → ROutcome β
  | .ok a => .ok (f a)
  | .err => .err
  | .panicked => .panicked

/-- Embeds `Option::unwrap`: panics on `None`. -/
def optionUnwrap : Option α → ROutcome α
  | some a => ROutcome.ok a
  | none => ROutcome.panicked

/-- Embeds `TestType::get_executor` from `src/test_type/mod.rs`: resolves the
optional database name first (`?` propagates an unresolvable name as `err`),
then constructs the variant's executor; every database-backed arm — including
`Unknown` — calls `database.unwrap()`, which panics when no database name was
supplied. -/
def TestType.get_executor (self : TestType) (database_name : Option String)
    (concurrency_levels pipeline_concurrency_levels : List ℕ) : ROutcome Executor :=
  let database : ROutcome (Option Database) :=
    match database_name with
    | some name =>
      match Database.get name with
      | some d => ROutcome.ok (some d)
      | none => ROutcome.err
    | none => ROutcome.ok none
  match database with
  | .err => ROutcome.err
  | .panicked => ROutcome.panicked
  | .ok database =>
    match self with
    | .Json => ROutcome.ok (Executor.json concurrency_levels)
    | .SingleQuery => (optionUnwrap database).map (Executor.singleQuery · concurrency_levels)
    | .MultiQuery => (optionUnwrap database).map (Executor.multiQuery · concurrency_levels)
    | .CachedQuery => (optionUnwrap database).map (Executor.cachedQuery · concurrency_levels)
    | .Fortune => (optionUnwrap database).map (Executor.fortune · concurrency_levels)
    | .Update => (optionUnwrap database).map (Executor.updates · concurrency_levels)
    | .Plaintext => ROutcome.ok (Executor.plaintext pipeline_concurrency_levels)
    | .Unknown test_type => (optionUnwrap database).map (Executor.unknown · test_type)

/-- Embeds `Unknown::verify` from `src/test_type/unknown.rs`: record one error
and return the messages (the 3-second sleep has no observable effect here). -/
def Unknown.verify (test_type url : String) : Messages :=
  (Messages.new url).error ("Unknown test type: " ++ test_type) "Unknown Test"

/-! ## Query-object validator (`src/test_type/query/mod.rs`) -/

/-- Shallow model of `serde_json::Value` restricted to integral numbers (every
number appearing in the embedded checks is compared through `as_i64`). -/
inductive Json where
  | null
  | bool (b : Bool)
  | num (n : ℤ)
  | str (s : String)
  | arr (xs : List Json)
  | obj (kvs : List (String × Json))

/-- Embeds `Value::as_i64` on the model: integral numbers within `i64` range. -/
def Json.as_i64 : Json → Option ℤ
  | .num n => if -9223372036854775808 ≤ n ∧ n ≤ 9223372036854775807 then some n else none
  | _ => none

/-- Embeds `Value::as_str`. -/
def Json.as_str : Json → Option String
  | .str s => some s
  | _ => none

/-- Rendering used when a `Value` is interpolated into a message (`Display`
for `serde_json::Value`); only the cases reachable from the embedded checks
need to be faithful. -/
def Json.display : Json → String
  | .null => "null"
  | .bool b => if b then "true" else "false"
  | .num n => toString n
  | .str s => "\"" ++ s ++ "\""
  | .arr _ => "[..]"
  | .obj _ => "\x7b..\x7d"

/-- Map indexing `json[key]` on a `serde_json::Map` (the key is always present
at every use site in the source; absent keys yield `null` here). -/
def jsonGet (kvs : List (String × Json)) (key : String) : Json :=
  match kvs.find? (fun kv => kv.1 = key) with
  | some kv => kv.2
  | none => Json.null

/-- Embeds Rust `i64::from_str` (optional sign, decimal digits, `i64` range). -/
def i64_from_str (s : String) : Option ℤ :=
  match s.data with
  | [] => none
  | '+' :: cs =>
    match cs with
    | [] => none
    | _ :: _ =>
      (parseNatDigitsAux cs 0).bind fun n =>
        if (n : ℤ) ≤ 9223372036854775807 then some (n : ℤ) else none
  | '-' :: cs =>
    match cs with
    | [] => none
    | _ :: _ =>
      (parseNatDigitsAux cs 0).bind fun n =>
        if (n : ℤ) ≤ 9223372036854775808 then some (-(n : ℤ)) else none
  | cs =>
    (parseNatDigitsAux cs 0).bind fun n =>
      if (n : ℤ) ≤ 9223372036854775807 then some (n : ℤ) else none

/-- State of the key-scanning loop at the top of
`Query::verify_random_number_object`. -/
structure KeyScan where
  id_found : Bool
  id_key : String
  random_number_found : Bool
  random_number_key : String
  keys : ℕ
  unknown_keys : String

/-- Embeds the `for key in json.keys()` loop of `verify_random_number_object`. -/
def scanKeys : List (String × Json) → KeyScan → KeyScan
  | [], st => st
  | (key, _) :: rest, st =>
    let st := { st with keys := st.keys + 1 }
    let st :=
      if rustToLower key = "id" then
        { st with id_found := true, id_key := key }
      else if rustToLower key = "randomnumber" then
        { st with random_number_found := true, random_number_key := key }
      else
        { st with unknown_keys := st.unknown_keys ++ rustToLower key ++ ", " }
    scanKeys rest st

/-- Embeds `Query::verify_random_number_object` from
`src/test_type/query/mod.rs` over the JSON object's key/value list. -/
def verify_random_number_object (json : List (String × Json)) (messages : Messages) : Messages :=
  let st := scanKeys json ⟨false, "id", false, "randomnumber", 0, ""⟩
  if ¬ st.id_found then
    messages.error "Response object was missing required key: id" "Missing Key"
  else if ¬ st.random_number_found then
    messages.error "Response object was missing required key: randomnumber" "Missing Key"
  else
    let messages :=
      if st.keys > 2 then
        let unknown := st.unknown_keys.dropRight 2
        if st.keys = 3 then
          messages.warning ("An extra key is being included with the db object: " ++ unknown)
            "Extra Key"
        else
          messages.warning ("Extra keys are being included with the db object: " ++ unknown)
            "Extra Keys"
      else messages
    let idv := jsonGet json st.id_key
    let tmp0 := idv.as_i64
    let step : Messages × Option ℤ :=
      match idv.as_str with
      | some id_str =>
        match i64_from_str id_str with
        | some parsed =>
          (messages.warning
            ("Response key \x27id\x27 is int-string; should be int: " ++ id_str ++
              ". This may negatively affect performance by sending extra bytes.")
            "Extra Bytes", some parsed)
        | none => (messages, tmp0)
      | none => (messages, tmp0)
    let messages := step.1
    let tmp := step.2
    let messages :=
      if tmp = none then
        messages.error ("Response key \x27id\x27 does not map to an integer: " ++ idv.display)
          "Invalid Value"
      else messages
    let id := tmp.getD (0 : ℤ)
    let messages :=
      if id > 10000 then
        messages.warning ("Response key \x27id\x27 should be between 1 and 10,000: " ++ toString id)
          "Value Out of Range"
      else messages
    match (jsonGet json st.random_number_key).as_i64 with
    | some random_number =>
      if random_number < 1 then
        messages.error
          ("Response key \x27randomnumber\x27 must be greater than zero: " ++ toString random_number)
          "Invalid Value"
      else if random_number > 10000 then
        messages.warning
          "Response key \x60randomNumber\x60 is over 10,000. This may negatively affect performance by sending extra bytes."
          "Value Out of Range"
      else messages
    | none =>
      messages.error
        ("Response key \x27randomnumber\x27 does not map to an integer: " ++
          (jsonGet json st.random_number_key).display)
        "Invalid Value"

/-! ## Fortune HTML normalization (`src/test_type/fortune.rs`) -/

/-- Embeds Rust `str::replace` over character lists: rewrites every
non-overlapping occurrence of `pat` left to right (fuel bounds the recursion;
callers pass the input length). -/
def replaceChars (pat repl : List Char) : ℕ → List Char → List Char
  | 0, _ => []
  | _, [] => []
  | fuel + 1, c :: rest =>
    if pat ≠ [] ∧ pat.isPrefixOf (c :: rest) then
      repl ++ replaceChars pat repl fuel ((c :: rest).drop pat.length)
    else
      c :: replaceChars pat repl fuel rest

/-- Embeds Rust `str::replace` on strings. -/
def strReplace (s pat repl : String) : String :=
  String.mk (replaceChars pat.data repl.data s.data.length s.data)

/-- The replacement table of `normalize_text` in `src/test_type/fortune.rs`,
in source order (the order matters: literal characters are escaped before the
numeric-reference spellings are folded). -/
def normalizeTextRules : List (String × String) :=
  [("\x27", "&apos;"), ("\"", "&quot;"), (">", "&gt;"), ("<", "&lt;"),
   ("&#34;", "&quot;"), ("&#034;", "&quot;"), ("&#x22;", "&quot;"),
   ("&#39;", "&apos;"), ("&#039;", "&apos;"), ("&#x27;", "&apos;"),
   ("&#43;", "+"), ("&#043;", "+"), ("&#x2b;", "+"),
   ("&#62;", "&gt;"), ("&#062;", "&gt;"), ("&#x3e;", "&gt;"),
   ("&#60;", "&lt;"), ("&#060;", "&lt;"), ("&#x3c;", "&lt;"),
   ("&#47;", "/"), ("&#047;", "/"), ("&#x2f;", "/"),
   ("&#40;", "("), ("&#040;", "("), ("&#x28;", "("),
   ("&#41;", ")"), ("&#041;", ")"), ("&#x29;", ")")]

/-- Embeds `normalize_text` from `src/test_type/fortune.rs`: the chain of
`replace` calls applied in source order. -/
def normalize_text (input : String) : String :=
  normalizeTextRules.foldl (fun s pr => strReplace s pr.1 pr.2) input

/-- Tokens produced by the HTML tokenizer that `normalize_html` consumes
(doctype, character data, start/end tags; everything else is dropped by the
`FortunesAccumulator` sink). -/
inductive HtmlToken where
  | doctype (name : String)
  | chars (data : String)
  | startTag (name : String)
  | endTag (name : String)

/-- Splits a leading tag-name run: characters up to whitespace, `/` or `>`. -/
def takeTagName : List Char → List Char × List Char
  | [] => ([], [])
  | c :: rest =>
    if c = ' ' ∨ c = '\t' ∨ c = '\n' ∨ c = '\r' ∨ c = '/' ∨ c = '>' then
      ([], c :: rest)
    else
      let (name, rem) := takeTagName rest
      (c :: name, rem)

/-- Drops everything up to and including the next `>`. -/
def skipToGt : List Char → List Char
  | [] => []
  | '>' :: rest => rest
  | _ :: rest => skipToGt rest

/-- Hexadecimal value of a character, or `none`. -/
def hexVal (c : Char) : Option ℕ :=
  if '0' ≤ c ∧ c ≤ '9' then some (c.toNat - '0'.toNat)
  else if 'a' ≤ c ∧ c ≤ 'f' then some (c.toNat - 'a'.toNat + 10)
  else if 'A' ≤ c ∧ c ≤ 'F' then some (c.toNat - 'A'.toNat + 10)
  else none

/-- Accumulates digits of a numeric character reference in the given base. -/
def takeBaseDigits (base : ℕ) (digit : Char → Option ℕ) : List Char → ℕ → ℕ × List Char
  | [], acc => (acc, [])
  | c :: rest, acc =>
    match digit c with
    | some d => takeBaseDigits base digit rest (acc * base + d)
    | none => (acc, c :: rest)

/-- Decodes one character reference after a `&` in character data, returning
the decoded character and the remaining input.  Modelled from the spec: the
HTML5 character-reference decoding performed by the external `html5ever`
tokenizer, restricted to the five named entities and semicolon-terminated
numeric (decimal and hex) references; an invalid code point becomes U+FFFD. -/
def charRef : List Char → Option (Char × List Char)
  | 'l' :: 't' :: ';' :: rest => some ('<', rest)
  | 'g' :: 't' :: ';' :: rest => some ('>', rest)
  | 'a' :: 'm' :: 'p' :: ';' :: rest => some ('&', rest)
  | 'q' :: 'u' :: 'o' :: 't' :: ';' :: rest => some ('"', rest)
  | 'a' :: 'p' :: 'o' :: 's' :: ';' :: rest => some ('\x27', rest)
  | '#' :: 'x' :: rest =>
    match rest with
    | c :: _ =>
      if (hexVal c).isSome then
        match takeBaseDigits 16 hexVal rest 0 with
        | (n, ';' :: rem) =>
          some (if n.isValidChar then Char.ofNat n else '\uFFFD', rem)
        | _ => none
      else none
    | [] => none
  | '#' :: rest =>
    match rest with
    | c :: _ =>
      if (digitVal c).isSome then
        match takeBaseDigits 10 digitVal rest 0 with
        | (n, ';' :: rem) =>
          some (if n.isValidChar then Char.ofNat n else '\uFFFD', rem)
        | _ => none
      else none
    | [] => none
  | _ => none

/-- Matches `doctype` case-insensitively at the head of the input. -/
def matchDoctypeWord : List Char → Option (List Char)
  | d :: o :: c :: t :: y :: p :: e :: rest =>
    if asciiLower d = 'd' ∧ asciiLower o = 'o' ∧ asciiLower c = 'c' ∧ asciiLower t = 't' ∧
        asciiLower y = 'y' ∧ asciiLower p = 'p' ∧ asciiLower e = 'e' then
      some rest
    else none
  | _ => none

/-- Drops leading ASCII whitespace. -/
def dropHtmlSpace : List Char → List Char
  | c :: rest =>
    if c = ' ' ∨ c = '\t' ∨ c = '\n' ∨ c = '\r' then dropHtmlSpace rest else c :: rest
  | [] => []

/-- Tokenizer core.  Modelled from the spec: the external `html5ever` HTML5
tokenizer as §4.3 consumes it — character data with character references
decoded, start/end tag events with attributes ignored and names lowercased,
and doctype events; `fuel` bounds the recursion (callers pass the input
length) and `acc` holds the current reversed character-data run. -/
def tokenizeAux : ℕ → List Char → List Char → List HtmlToken
  | 0, _, acc =>
    if acc.isEmpty then [] else [HtmlToken.chars (String.mk acc.reverse)]
  | _, [], acc =>
    if acc.isEmpty then [] else [HtmlToken.chars (String.mk acc.reverse)]
  | fuel + 1, '<' :: rest, acc =>
    let flush : List HtmlToken → List HtmlToken := fun ts =>
      if acc.isEmpty then ts else HtmlToken.chars (String.mk acc.reverse) :: ts
    match rest with
    | '/' :: rest2 =>
      let (name, rem) := takeTagName rest2
      if name.isEmpty then
        tokenizeAux fuel rest ('<' :: acc)
      else
        flush (HtmlToken.endTag (String.mk (name.map asciiLower)) :: tokenizeAux fuel (skipToGt rem) [])
    | '!' :: rest2 =>
      match matchDoctypeWord rest2 with
      | some rest3 =>
        let (name, rem) := takeTagName (dropHtmlSpace rest3)
        flush (HtmlToken.doctype (String.mk (name.map asciiLower)) :: tokenizeAux fuel (skipToGt rem) [])
      | none =>
        tokenizeAux fuel rest ('<' :: acc)
    | c :: _ =>
      if ('a' ≤ c ∧ c ≤ 'z') ∨ ('A' ≤ c ∧ c ≤ 'Z') then
        let (name, rem) := takeTagName rest
        flush (HtmlToken.startTag (String.mk (name.map asciiLower)) :: tokenizeAux fuel (skipToGt rem) [])
      else
        tokenizeAux fuel rest ('<' :: acc)
    | [] =>
      tokenizeAux fuel rest ('<' :: acc)
  | fuel + 1, '&' :: rest, acc =>
    match charRef rest with
    | some (c, rem) => tokenizeAux fuel rem (c :: acc)
    | none => tokenizeAux fuel rest ('&' :: acc)
  | fuel + 1, c :: rest, acc =>
    tokenizeAux fuel rest (c :: acc)

/-- Tokenizes an HTML input (model of feeding the `html5ever` tokenizer). -/
def tokenize (input : List Char) : List HtmlToken :=
  tokenizeAux input.length input []

/-- Embeds the `FortunesAccumulator` sink of `src/test_type/fortune.rs`:
doctype re-emitted as `<!doctype name>`, character data pushed through
`normalize_text`, tags re-emitted as `<name>` / `</name>`. -/
def accumulateTokens : List HtmlToken → String
  | [] => ""
  | HtmlToken.doctype name :: ts => "<!doctype " ++ name ++ ">" ++ accumulateTokens ts
  | HtmlToken.chars data :: ts => normalize_text data ++ accumulateTokens ts
  | HtmlToken.startTag name :: ts => "<" ++ name ++ ">" ++ accumulateTokens ts
  | HtmlToken.endTag name :: ts => "</" ++ name ++ ">" ++ accumulateTokens ts

/-- Embeds `normalize_html` from `src/test_type/fortune.rs`: strip every CR
and LF, tokenize, and accumulate the normalized token stream. -/
def normalize_html (input : String) : String :=
  accumulateTokens (tokenize (strReplace (strReplace input "\n" "") "\r" "").data)

/-- The canonical `FORTUNES` reference fixture from `src/test_type/fortune.rs`. -/
def FORTUNES : String :=
  "<!doctype html><html><head><title>Fortunes</title></head><body><table><tr><th>id</th><th>message</th></tr><tr><td>11</td><td>&lt;script&gt;alert(&quot;This should not be displayed in a browser alert box.&quot;);&lt;/script&gt;</td></tr><tr><td>4</td><td>A bad random number generator: 1, 1, 1, 1, 1, 4.33e+67, 1, 1, 1</td></tr><tr><td>5</td><td>A computer program does what you tell it to do, not what you want it to do.</td></tr><tr><td>2</td><td>A computer scientist is someone who fixes things that aren&apos;t broken.</td></tr><tr><td>8</td><td>A list is only as strong as its weakest link. — Donald Knuth</td></tr><tr><td>0</td><td>Additional fortune added at request time.</td></tr><tr><td>3</td><td>After enough decimal places, nobody gives a damn.</td></tr><tr><td>7</td><td>Any program that runs right is obsolete.</td></tr><tr><td>10</td><td>Computers make very fast, very accurate mistakes.</td></tr><tr><td>6</td><td>Emacs is a nice operating system, but I prefer UNIX. — Tom Christaensen</td></tr><tr><td>9</td><td>Feature: A bug with seniority.</td></tr><tr><td>1</td><td>fortune: No such file or directory</td></tr><tr><td>12</td><td>フレームワークのベンチマーク</td></tr></table></body></html>"

/-- Tail-recursive character-list equality used to discharge the large
fixture computations through the kernel. -/
def charsEqT : List Char → List Char → Bool
  | [], [] => true
  | a :: as, b :: bs => if a = b then charsEqT as bs else false
  | _, _ => false

/-! ## Plaintext validator and fortune dynamic-sizing re-check
(`src/test_type/plaintext.rs`, `src/test_type/fortune.rs`) -/

/-- Substring search over character lists (Rust `str::contains` with a string
pattern). -/
def charsContains (pat : List Char) : List Char → Bool
  | [] => pat.isEmpty
  | c :: rest => pat.isPrefixOf (c :: rest) || charsContains pat rest

/-- Embeds Rust `str::contains`. -/
def strContains (s pat : String) : Bool :=
  charsContains pat.data s.data

/-- Modulus of Rust `usize` arithmetic. -/
def USIZE : ℕ := 2 ^ 64

/-- Embeds `Plaintext::verify_plaintext` from `src/test_type/plaintext.rs`.
The `usize` subtraction `body.len() - expected.len()` is modelled with Rust
release-mode wrap-around modulo `2^64`; on a body shorter than 13 bytes it
yields a huge positive `extra_bytes` (a debug build would panic instead). -/
def verify_plaintext (response_body : String) (messages : Messages) : Messages :=
  let body := rustToLower response_body
  let expected := "hello, world!"
  let extra_bytes : ℕ := (body.utf8ByteSize + USIZE - expected.utf8ByteSize) % USIZE
  let messages :=
    if ¬ strContains body expected then
      messages.error ("Could not find \x27Hello, World!\x27 in response: \x27" ++ body ++ "\x27")
        "Invalid response body"
    else messages
  if extra_bytes > 0 then
    messages.warning
      ("Server is returning " ++ toString extra_bytes ++
        " more bytes than are required. This may negatively affect benchmark performance.")
      "Additional response byte(s)"
  else messages

/-- Embeds the single-line accumulation `for line in response_body.lines()`
(Rust `str::lines` drops every LF and one CR immediately preceding an LF). -/
def accumulateLines : List Char → List Char
  | [] => []
  | '\r' :: '\n' :: rest => accumulateLines rest
  | '\n' :: rest => accumulateLines rest
  | c :: rest => c :: accumulateLines rest

/-- Takes exactly `n` leading UTF-8 bytes of a character list, panicking (as
Rust byte slicing `&s[..n]` does) when the string is shorter than `n` bytes or
byte `n` is not a character boundary. -/
def takeBytes : List Char → ℕ → ROutcome (List Char)
  | _, 0 => ROutcome.ok []
  | [], _ + 1 => ROutcome.panicked
  | c :: rest, n + 1 =>
    if c.utf8Size ≤ n + 1 then
      (takeBytes rest (n + 1 - c.utf8Size)).map (fun t => c :: t)
    else ROutcome.panicked

/-- Embeds the Rust byte-slice `s[..n].to_string()`. -/
def byteSlice (s : String) (n : ℕ) : ROutcome String :=
  (takeBytes s.data n).map String.mk

/-- Builds the `for i in 0..n` loop body of
`verify_fortunes_are_dynamically_sized`, appending one fixture row per index. -/
def moreFortunesRows : ℕ → String
  | 0 => ""
  | n + 1 =>
    moreFortunesRows n ++ "<tr><td>" ++ toString (n + 13) ++
      "</td><td>フレームワークのベンチマーク</td></tr>"

/-- The `more_fortunes` expectation string assembled by
`verify_fortunes_are_dynamically_sized` (reference table plus 1,000 rows). -/
def more_fortunes : String :=
  "<!doctype html><html><head><title>Fortunes</title></head><body><table><tr><th>id</th><th>message</th></tr><tr><td>11</td><td>&lt;script&gt;alert(&quot;This should not be displayed in a browser alert box.&quot;);&lt;/script&gt;</td></tr><tr><td>4</td><td>A bad random number generator: 1, 1, 1, 1, 1, 4.33e+67, 1, 1, 1</td></tr><tr><td>5</td><td>A computer program does what you tell it to do, not what you want it to do.</td></tr><tr><td>2</td><td>A computer scientist is someone who fixes things that aren&apos;t broken.</td></tr><tr><td>8</td><td>A list is only as strong as its weakest link. — Donald Knuth</td></tr><tr><td>0</td><td>Additional fortune added at request time.</td></tr><tr><td>3</td><td>After enough decimal places, nobody gives a damn.</td></tr><tr><td>7</td><td>Any program that runs right is obsolete.</td></tr><tr><td>10</td><td>Computers make very fast, very accurate mistakes.</td></tr><tr><td>6</td><td>Emacs is a nice operating system, but I prefer UNIX. — Tom Christaensen</td></tr><tr><td>9</td><td>Feature: A bug with seniority.</td></tr><tr><td>1</td><td>fortune: No such file or directory</td></tr><tr><td>12</td><td>フレームワークのベンチマーク</td></tr>"
    ++ moreFortunesRows 1000 ++ "</table></body></html>"

/-- Embeds `Fortune::verify_fortunes_are_dynamically_sized` from
`src/test_type/fortune.rs` with the re-fetched response body passed in (the
database insert of 1,000 fortunes has no further observable effect here).
The body snapshot preparation byte-slices the single-line accumulation with
`accumulator[..500]`, which panics whenever the accumulated body is shorter
than 500 bytes; otherwise the normalized character count is compared against
`more_fortunes` and a mismatch records `Non-dynamic Fortune`. -/
def verify_fortunes_are_dynamically_sized (response_body : String) (messages : Messages) :
    ROutcome Messages :=
  let accumulator := String.mk (accumulateLines response_body.data)
  match byteSlice accumulator 500 with
  | ROutcome.panicked => ROutcome.panicked
  | ROutcome.err => ROutcome.err
  | ROutcome.ok snippet =>
    let messages := messages.setBody (snippet ++ "...")
    let fortunes := normalize_html response_body
    if fortunes.length ≠ more_fortunes.length then
      ROutcome.ok (messages.error
        ("Fortunes not dynamically sized. Expected length: " ++ toString more_fortunes.utf8ByteSize ++
          "; actual length: " ++ toString fortunes.utf8ByteSize)
        "Non-dynamic Fortune")
    else ROutcome.ok messages

/-! ## Database counter reconciliation (`src/database/mod.rs`,
`src/database/mysql.rs`, `src/test_type/query/updates.rs`) -/

/-- Embeds the reporting tail of
`DatabaseInterface::issue_multi_query_requests` (`src/database/mod.rs`) with
the final outcome counters passed in: observed failures produce a
`Failed Response` error, and a success tally different from
`concurrency * repetitions` produces an `Unexpected Responses` error. -/
def issue_multi_query_requests_messages (url : String) (concurrency repetitions : ℤ)
    (successes failures : ℕ) (messages : Messages) : Messages :=
  let messages :=
    if failures > 0 then
      messages.error ("Failed response(s) from " ++ url ++ ": " ++ toString failures)
        "Failed Response"
    else messages
  if (successes : ℤ) ≠ concurrency * repetitions then
    messages.error ("Unexpected response count from " ++ url ++ ": " ++ toString successes)
      "Unexpected Responses"
  else messages

/-- Embeds `DatabaseInterface::verify_queries_count` from
`src/database/mod.rs`, with the two counter reads (`i64`) and the harness
outcome passed in as parameters: the observed delta is compared to the
expectation and only a strictly smaller delta records a finding (`Too Few
Queries`); the source deliberately does not warn on over-reporting. -/
def verify_queries_count (url table_name : String) (before_count after_count : ℤ)
    (concurrency repetitions : ℤ) (successes failures : ℕ)
    (expected_queries : ℤ) (messages : Messages) : Messages :=
  let messages :=
    issue_multi_query_requests_messages url concurrency repetitions successes failures messages
  let queries := after_count - before_count
  if queries < expected_queries then
    messages.error
      ("Only " ++ toString queries ++ " executed queries in the database out of roughly " ++
        toString expected_queries ++ " expected.")
      "Too Few Queries"
  else messages

/-- Embeds `DatabaseInterface::verify_rows_count` from `src/database/mod.rs`
(same comparison policy as `verify_queries_count`, short label
`Too Few Rows`). -/
def verify_rows_count (url table_name : String) (before_count after_count : ℤ)
    (concurrency repetitions : ℤ) (successes failures : ℕ)
    (expected_rows : ℤ) (messages : Messages) : Messages :=
  let messages :=
    issue_multi_query_requests_messages url concurrency repetitions successes failures messages
  let rows := after_count - before_count
  if rows < expected_rows then
    messages.error
      ("Only " ++ toString rows ++ " executed rows read in the database out of roughly " ++
        toString expected_rows ++ " expected.")
      "Too Few Rows"
  else messages

/-- Integer significand of the `f64` literal `1.015`: the double nearest to
1.015 is `4571153621781053 / 2^52` (slightly below 1.015). -/
def mantissa1015 : ℕ := 4571153621781053

/-- Fuel-driven binary logarithm (structurally recursive so the kernel can
evaluate it; equal to `Nat.log2`, see `log2m_eq`). -/
def bitLenAux : ℕ → ℕ → ℕ
  | 0, _ => 0
  | fuel + 1, n => if n ≤ 1 then 0 else bitLenAux fuel (n / 2) + 1

/-- Kernel-evaluable `Nat.log2`. -/
def log2m (n : ℕ) : ℕ :=
  bitLenAux n n

/-- Rounds a positive integer to 53 significant bits with ties to even — the
rounding that the `f64` product `count as f64 * 1.015` performs on the exact
integer product `count * mantissa1015` (the conversion `count as f64` is exact
for every count below `2^53`). -/
def rne53 (N : ℕ) : ℕ :=
  if N < 2 ^ 53 then N
  else
    let k := log2m N - 52
    let q := N / 2 ^ k
    let r := N % 2 ^ k
    let half := 2 ^ (k - 1)
    if r > half ∨ (r = half ∧ q % 2 = 1) then (q + 1) * 2 ^ k else q * 2 ^ k

/-- Embeds `Mysql::get_count_of_rows_updated_for_table` from
`src/database/mysql.rs` with the raw `Innodb_rows_updated` counter passed in:
the 1.5% compensation `(count as f64 * 1.015) as usize`, i.e. the correctly
rounded double product truncated toward zero. -/
def get_count_of_rows_updated_for_table (count : ℕ) : ℕ :=
  rne53 (count * mantissa1015) / 2 ^ 52

/-- Embeds `Updates::verify_updates_count` from
`src/test_type/query/updates.rs` against the MySQL backend, with the two raw
counter reads and the harness outcome passed in: both reads go through the
1.5% compensation of `get_count_of_rows_updated_for_table`, their difference
is compared to `expected_updates`, and only a strictly smaller delta records
`Too Few Rows`. -/
def verify_updates_count (url table_name : String) (before_raw after_raw : ℕ)
    (concurrency repetitions : ℤ) (successes failures : ℕ)
    (expected_updates : ℤ) (messages : Messages) : Messages :=
  let before := get_count_of_rows_updated_for_table before_raw
  let messages :=
    issue_multi_query_requests_messages url concurrency repetitions successes failures messages
  let after := get_count_of_rows_updated_for_table after_raw
  let updated : ℤ := (after : ℤ) - (before : ℤ)
  if updated < expected_updates then
    messages.error
      ("Only " ++ toString updated ++ " executed rows updated in the database out of roughly " ++
        toString expected_updates ++ " expected.")
      "Too Few Rows"
  else messages

/-! ## Header validator (`src/test_type/mod.rs`) -/

/-- The expected content category (`ContentType` in `src/request.rs`). -/
inductive ContentType where
  | Json
  | Html
  | Plaintext
deriving DecidableEq

/-- Case-sensitive lookup in a header map (model of `HashMap::get`). -/
def headersGet (headers : List (String × String)) (key : String) : Option String :=
  match headers.find? (fun kv => kv.1 = key) with
  | some kv => some kv.2
  | none => none

/-- Model of `HashMap::contains_key`. -/
def headersContainsKey (headers : List (String × String)) (key : String) : Bool :=
  (headers.find? (fun kv => kv.1 = key)).isSome

/-- Parses an exactly-two-digit number. -/
def parse2Digits : List Char → Option (ℕ × List Char)
  | a :: b :: rest =>
    match digitVal a, digitVal b with
    | some x, some y => some (10 * x + y, rest)
    | _, _ => none
  | _ => none

/-- Takes a run of decimal digits, returning value, digit count and rest. -/
def takeDigitsCount : List Char → ℕ → ℕ → ℕ × ℕ × List Char
  | [], acc, cnt => (acc, cnt, [])
  | c :: rest, acc, cnt =>
    match digitVal c with
    | some d => takeDigitsCount rest (acc * 10 + d) (cnt + 1)
    | none => (acc, cnt, c :: rest)

/-- Drops one or more spaces; fails when none are present. -/
def dropSpaces1 : List Char → Option (List Char)
  | ' ' :: rest =>
    match rest with
    | ' ' :: _ =>
      match dropSpaces1 rest with
      | some r => some r
      | none => none
    | _ => some rest
  | _ => none

/-- Weekday names of the RFC-2822 date format, numbered Mon = 0 .. Sun = 6. -/
def parseDayName : List Char → Option (ℕ × List Char)
  | 'M' :: 'o' :: 'n' :: rest => some (0, rest)
  | 'T' :: 'u' :: 'e' :: rest => some (1, rest)
  | 'W' :: 'e' :: 'd' :: rest => some (2, rest)
  | 'T' :: 'h' :: 'u' :: rest => some (3, rest)
  | 'F' :: 'r' :: 'i' :: rest => some (4, rest)
  | 'S' :: 'a' :: 't' :: rest => some (5, rest)
  | 'S' :: 'u' :: 'n' :: rest => some (6, rest)
  | _ => none

/-- Month names of the RFC-2822 date format, numbered 1..12. -/
def parseMonthName : List Char → Option (ℕ × List Char)
  | 'J' :: 'a' :: 'n' :: rest => some (1, rest)
  | 'F' :: 'e' :: 'b' :: rest => some (2, rest)
  | 'M' :: 'a' :: 'r' :: rest => some (3, rest)
  | 'A' :: 'p' :: 'r' :: rest => some (4, rest)
  | 'M' :: 'a' :: 'y' :: rest => some (5, rest)
  | 'J' :: 'u' :: 'n' :: rest => some (6, rest)
  | 'J' :: 'u' :: 'l' :: rest => some (7, rest)
  | 'A' :: 'u' :: 'g' :: rest => some (8, rest)
  | 'S' :: 'e' :: 'p' :: rest => some (9, rest)
  | 'O' :: 'c' :: 't' :: rest => some (10, rest)
  | 'N' :: 'o' :: 'v' :: rest => some (11, rest)
  | 'D' :: 'e' :: 'c' :: rest => some (12, rest)
  | _ => none

/-- Zone of the RFC-2822 date format: a signed `HHMM` offset in minutes, or
one of the zero-offset obsolete names. -/
def parseZone : List Char → Option (ℤ × List Char)
  | '+' :: rest =>
    match parse2Digits rest with
    | some (zh, rest) =>
      match parse2Digits rest with
      | some (zm, rest) => if zm ≤ 59 then some ((zh * 60 + zm : ℕ), rest) else none
      | none => none
    | none => none
  | '-' :: rest =>
    match parse2Digits rest with
    | some (zh, rest) =>
      match parse2Digits rest with
      | some (zm, rest) => if zm ≤ 59 then some (-((zh * 60 + zm : ℕ) : ℤ), rest) else none
      | none => none
    | none => none
  | 'G' :: 'M' :: 'T' :: rest => some (0, rest)
  | 'U' :: 'T' :: rest => some (0, rest)
  | _ => none

/-- Leap-year predicate of the proleptic Gregorian calendar. -/
def isLeapYear (y : ℤ) : Bool :=
  y % 4 = 0 ∧ (y % 100 ≠ 0 ∨ y % 400 = 0)

/-- Number of days in a month. -/
def daysInMonth (m : ℕ) (y : ℤ) : ℕ :=
  if m = 1 ∨ m = 3 ∨ m = 5 ∨ m = 7 ∨ m = 8 ∨ m = 10 ∨ m = 12 then 31
  else if m = 4 ∨ m = 6 ∨ m = 9 ∨ m = 11 then 30
  else if m = 2 then (if isLeapYear y then 29 else 28)
  else 0

/-- Days from 1970-01-01 of a civil date (proleptic Gregorian; the standard
era-based conversion, with truncating integer division as in the source
languages that algorithm comes from). -/
def days_from_civil (y : ℤ) (m d : ℕ) : ℤ :=
  let y := if m ≤ 2 then y - 1 else y
  let era : ℤ := (if 0 ≤ y then y else y - 399) / 400
  let yoe : ℤ := y - era * 400
  let mp : ℤ := ((m : ℤ) + 9) % 12
  let doy : ℤ := (153 * mp + 2) / 5 + (d : ℤ) - 1
  let doe : ℤ := yoe * 365 + yoe / 4 - yoe / 100 + doy
  era * 146097 + doe - 719468

/-- Weekday (Mon = 0 .. Sun = 6) of a day number (1970-01-01 was a Thursday). -/
def weekdayOfDays (days : ℤ) : ℕ :=
  (((days + 3) % 7 + 7) % 7).toNat

/-- Modelled from the spec: `chrono::DateTime::parse_from_rfc2822`, the
external date parser the header validator calls, on the format
`[Day, ]DD Mon YYYY HH:MM:SS ZONE` with four-digit years; returns the instant
as Unix seconds (chrono's `DateTime` equality compares instants, so the
offset is subtracted away).  A mismatching weekday name, an impossible civil
date or an out-of-range time component is a parse failure, as in chrono. -/
def parse_rfc2822 (s : String) : Option ℤ :=
  let cs := s.data
  let afterWeekday : Option (Option ℕ × List Char) :=
    match parseDayName cs with
    | some (wd, rest) =>
      match rest with
      | ',' :: rest2 =>
        match dropSpaces1 rest2 with
        | some rest3 => some (some wd, rest3)
        | none => none
      | _ => none
    | none => some (none, cs)
  match afterWeekday with
  | none => none
  | some (wd, rest) =>
    match takeDigitsCount rest 0 0 with
    | (d, dcnt, rest) =>
      if 1 ≤ dcnt ∧ dcnt ≤ 2 then
        match dropSpaces1 rest with
        | some rest =>
          match parseMonthName rest with
          | some (m, rest) =>
            match dropSpaces1 rest with
            | some rest =>
              match takeDigitsCount rest 0 0 with
              | (yr, ycnt, rest) =>
                if ycnt = 4 then
                  match dropSpaces1 rest with
                  | some rest =>
                    match parse2Digits rest with
                    | some (hh, rest) =>
                      match rest with
                      | ':' :: rest =>
                        match parse2Digits rest with
                        | some (mi, rest) =>
                          match rest with
                          | ':' :: rest =>
                            match parse2Digits rest with
                            | some (ss, rest) =>
                              match dropSpaces1 rest with
                              | some rest =>
                                match parseZone rest with
                                | some (off, rest) =>
                                  if rest = [] ∧ hh ≤ 23 ∧ mi ≤ 59 ∧ ss ≤ 59 ∧
                                      1 ≤ d ∧ d ≤ daysInMonth m (yr : ℤ) then
                                    let days := days_from_civil (yr : ℤ) m d
                                    match wd with
                                    | some wd =>
                                      if weekdayOfDays days = wd then
                                        some (days * 86400 + (hh * 3600 + mi * 60 + ss : ℕ) - off * 60)
                                      else none
                                    | none =>
                                      some (days * 86400 + (hh * 3600 + mi * 60 + ss : ℕ) - off * 60)
                                  else none
                                | none => none
                              | none => none
                            | none => none
                          | _ => none
                        | none => none
                      | _ => none
                    | none => none
                  | none => none
                else none
            | none => none
          | none => none
        | none => none
      else none

/-- Matcher of the regex `^application/json(; ?charset=(UTF|utf)-8)?$`. -/
def jsonContentTypeOk (s : String) : Bool :=
  s = "application/json" ∨ s = "application/json; charset=UTF-8" ∨
    s = "application/json;charset=UTF-8" ∨ s = "application/json; charset=utf-8" ∨
    s = "application/json;charset=utf-8"

/-- Matcher of the regex `^text/html; ?charset=(UTF|utf)-8$`. -/
def htmlContentTypeOk (s : String) : Bool :=
  s = "text/html; charset=UTF-8" ∨ s = "text/html;charset=UTF-8" ∨
    s = "text/html; charset=utf-8" ∨ s = "text/html;charset=utf-8"

/-- Matcher of the regex `^text/plain(; ?charset=(UTF|utf)-8)?$`. -/
def plaintextContentTypeOk (s : String) : Bool :=
  s = "text/plain" ∨ s = "text/plain; charset=UTF-8" ∨
    s = "text/plain;charset=UTF-8" ∨ s = "text/plain; charset=utf-8" ∨
    s = "text/plain;charset=utf-8"

/-- Embeds `verify_headers_internal` from `src/test_type/mod.rs`.  The
re-fetch performed by the cache-staleness probe is passed in as
`second_fetch` (`none` models a failed `get_response_headers`, which records
the `Header(s) Error` finding before propagating); the 3-second sleep has no
observable effect.  The probe compares the *parsed* dates with chrono's
`DateTime` equality, i.e. by instant. -/
def verify_headers_internal (headers : List (String × String)) (url : String)
    (should_be : ContentType) (should_retest : Bool)
    (second_fetch : Option (List (String × String))) (messages : Messages) : Messages :=
  let messages :=
    if ¬ (headersContainsKey headers "Server" ∨ headersContainsKey headers "server") then
      messages.error "Required response header missing: Server" "Missing header"
    else messages
  let messages :=
    if ¬ (headersContainsKey headers "Date" ∨ headersContainsKey headers "date") then
      messages.error "Required response header missing: Date" "Missing header"
    else messages
  let messages :=
    if ¬ (headersContainsKey headers "Content-Type" ∨ headersContainsKey headers "content-type") then
      messages.error "Required response header missing: Content-Type" "Missing header"
    else messages
  let messages :=
    if ¬ (headersContainsKey headers "Content-Length" ∨ headersContainsKey headers "content-length" ∨
        headersContainsKey headers "Transfer-Encoding" ∨ headersContainsKey headers "transfer-encoding") then
      messages.error
        "Required response size header missing, please include either \"Content-Length\" or \"Transfer-Encoding\""
        "Missing header"
    else messages
  let date_str :=
    match headersGet headers "Date" with
    | some d => some d
    | none => headersGet headers "date"
  let messages :=
    match date_str with
    | some date_str =>
      match parse_rfc2822 date_str with
      | some date =>
        if should_retest then
          match second_fetch with
          | some response_headers =>
            match headersGet response_headers "Date" with
            | some second_date_str =>
              match parse_rfc2822 second_date_str with
              | some second_date =>
                if second_date = date then
                  messages.error
                    ("Invalid Cached Date. Found \"" ++ date_str ++ "\" and \"" ++
                      second_date_str ++ "\" on separate requests.")
                    "Cached Date"
                else messages
              | none => messages
            | none => messages
          | none => messages.error ("Error requesting headers for url: " ++ url) "Header(s) Error"
        else messages
      | none =>
        messages.warning
          ("Invalid Date header, found \"" ++ date_str ++
            "\", did not match \"%a, %d %b %Y %H:%M:%S %Z\".")
          "Invalid Date"
    | none => messages
  let content_type :=
    match headersGet headers "Content-Type" with
    | some c => some c
    | none => headersGet headers "content-type"
  match content_type with
  | some content_type =>
    match should_be with
    | ContentType.Json =>
      if ¬ jsonContentTypeOk content_type then
        messages.error
          ("Invalid Content-Type header, found \"" ++ content_type ++
            "\", did not match \"^application/json(; ?charset=(UTF|utf)-8)?$\".")
          "Invalid Content-Type"
      else messages
    | ContentType.Html =>
      if ¬ htmlContentTypeOk content_type then
        messages.error
          ("Invalid Content-Type header, found \"" ++ content_type ++
            "\", did not match \"^text/html; ?charset=(UTF|utf)-8$\".")
          "Invalid Content-Type"
      else messages
    | ContentType.Plaintext =>
      if ¬ plaintextContentTypeOk content_type then
        messages.error
          ("Invalid Content-Type header, found \"" ++ content_type ++
            "\", did not match \"^text/plain(; ?charset=(UTF|utf)-8)?$\".")
          "Invalid Content-Type"
      else messages
  | none => messages

/-! ## Counted-request harness (`src/database/mod.rs`,
`issue_multi_query_requests`): interleaving semantics.

One repetition spawns a pool of workers that share the signed counter
`requests_to_send` (initialized to `concurrency - 1`) and the two outcome
counters.  Each worker loops: atomically load the counter and stop when it is
not positive, issue one request, bump a success or failure counter, then
atomically decrement the shared counter.  The step relation below models an
arbitrary interleaving of those atomic operations; `issued` is a ghost count
of requests actually sent. -/

/-- Position of one worker inside its loop body. -/
inductive WorkerPc where
  | atLoad
  | atRequest
  | atDec
  | finished
deriving DecidableEq

/-- Shared state of one repetition of the harness. -/
structure HarnessState where
  remaining : ℤ
  workers : List WorkerPc
  successes : ℕ
  failures : ℕ
  issued : ℕ
deriving DecidableEq

/-- Initial state of one repetition: `requests_to_send` starts at
`concurrency - 1` and every worker is about to perform its first load; the
outcome counters carry over from earlier repetitions. -/
def initRep (concurrency : ℤ) (worker_count successes failures issued : ℕ) : HarnessState :=
  { remaining := concurrency - 1
    workers := List.replicate worker_count WorkerPc.atLoad
    successes := successes
    failures := failures
    issued := issued }

/-- One atomic step of some worker `i` (the `request` step's `ok` flag is the
environment's choice of response outcome). -/
inductive HarnessStep : HarnessState → HarnessState → Prop where
  | load_pos (s : HarnessState) (i : ℕ)
      (hw : s.workers.get? i = some WorkerPc.atLoad) (hpos : 0 < s.remaining) :
      HarnessStep s { s with workers := s.workers.set i WorkerPc.atRequest }
  | load_nonpos (s : HarnessState) (i : ℕ)
      (hw : s.workers.get? i = some WorkerPc.atLoad) (hnp : s.remaining ≤ 0) :
      HarnessStep s { s with workers := s.workers.set i WorkerPc.finished }
  | request (s : HarnessState) (i : ℕ) (ok : Bool)
      (hw : s.workers.get? i = some WorkerPc.atRequest) :
      HarnessStep s
        { s with
          workers := s.workers.set i WorkerPc.atDec
          successes := if ok then s.successes + 1 else s.successes
          failures := if ok then s.failures else s.failures + 1
          issued := s.issued + 1 }
  | dec (s : HarnessState) (i : ℕ)
      (hw : s.workers.get? i = some WorkerPc.atDec) :
      HarnessStep s
        { s with
          workers := s.workers.set i WorkerPc.atLoad
          remaining := s.remaining - 1 }

/-- Reachability under arbitrary interleavings. -/
def HarnessReach : HarnessState → HarnessState → Prop :=
  Relation.ReflTransGen HarnessStep

/-- A repetition is over once `pool.join()` returns, i.e. every worker has
left its loop. -/
def HarnessDone (s : HarnessState) : Prop :=
  ∀ w ∈ s.workers, w = WorkerPc.finished

/-- Final counter values of the whole harness call: `repetitions` sequential
repetitions, each running the worker pool to completion from a fresh
`requests_to_send` counter while the outcome counters persist. -/
inductive HarnessRun (concurrency : ℤ) (worker_count : ℕ) :
    ℕ → ℕ × ℕ × ℕ → Prop where
  | base : HarnessRun concurrency worker_count 0 (0, 0, 0)
  | step (n : ℕ) (prev : ℕ × ℕ × ℕ) (t : HarnessState)
      (hrun : HarnessRun concurrency worker_count n prev)
      (hreach : HarnessReach (initRep concurrency worker_count prev.1 prev.2.1 prev.2.2) t)
      (hdone : HarnessDone t) :
      HarnessRun concurrency worker_count (n + 1) (t.successes, t.failures, t.issued)

/-! ## Helper lemmas -/

theorem charsEqT_eq_true_iff : ∀ as bs : List Char, charsEqT as bs = true ↔ as = bs := by
  intro as
  induction as with
  | nil => intro bs; cases bs <;> simp [charsEqT]
  | cons a as ih =>
    intro bs
    cases bs with
    | nil => simp [charsEqT]
    | cons b bs =>
      by_cases hab : a = b
      · simp [charsEqT, hab, ih]
      · simp [charsEqT, hab]

theorem string_data_eq {s t : String} (h : s.data = t.data) : s = t := by
  cases s
  cases t
  exact congrArg String.mk h

theorem emittedErrorShort_error (m : Messages) (msg s t : String) :
    (m.error msg s).emittedErrorShort t ↔ m.emittedErrorShort t ∨ s = t := by
  simp only [Messages.error, Messages.emittedErrorShort, List.mem_append, List.mem_singleton]
  constructor
  · rintro ⟨e, he | he, hk, hs⟩
    · exact Or.inl ⟨e, he, hk, hs⟩
    · subst he; exact Or.inr hs
  · rintro (⟨e, he, hk, hs⟩ | hs)
    · exact ⟨e, Or.inl he, hk, hs⟩
    · exact ⟨_, Or.inr rfl, rfl, hs⟩

theorem emittedErrorShort_warning (m : Messages) (msg s t : String) :
    (m.warning msg s).emittedErrorShort t ↔ m.emittedErrorShort t := by
  simp only [Messages.warning, Messages.emittedErrorShort, List.mem_append, List.mem_singleton]
  constructor
  · rintro ⟨e, he | he, hk, hs⟩
    · exact ⟨e, he, hk, hs⟩
    · subst he; simp at hk
  · rintro ⟨e, he, hk, hs⟩
    exact ⟨e, Or.inl he, hk, hs⟩

theorem emittedWarningShort_error (m : Messages) (msg s t : String) :
    (m.error msg s).emittedWarningShort t ↔ m.emittedWarningShort t := by
  simp only [Messages.error, Messages.emittedWarningShort, List.mem_append, List.mem_singleton]
  constructor
  · rintro ⟨e, he | he, hk, hs⟩
    · exact ⟨e, he, hk, hs⟩
    · subst he; simp at hk
  · rintro ⟨e, he, hk, hs⟩
    exact ⟨e, Or.inl he, hk, hs⟩

theorem emittedWarningShort_warning (m : Messages) (msg s t : String) :
    (m.warning msg s).emittedWarningShort t ↔ m.emittedWarningShort t ∨ s = t := by
  simp only [Messages.warning, Messages.emittedWarningShort, List.mem_append, List.mem_singleton]
  constructor
  · rintro ⟨e, he | he, hk, hs⟩
    · exact Or.inl ⟨e, he, hk, hs⟩
    · subst he; exact Or.inr hs
  · rintro (⟨e, he, hk, hs⟩ | hs)
    · exact ⟨e, Or.inl he, hk, hs⟩
    · exact ⟨_, Or.inr rfl, rfl, hs⟩

/-! ## Claim theorems -/

/-- C10: `Messages::error` appends exactly one record — carrying the current
url, headers snapshot and body snapshot — to the errors list and leaves the
warnings list and the url, headers and body fields unchanged (the previous
records and their order are preserved because the new record is appended at
the end); `Messages::warning` does the same symmetrically on the warnings
list. -/
theorem messages_error_warning_frame (m : Messages) (msg short : String) :
    (m.error msg short).errors = m.errors ++ [⟨m.body, m.url, m.headers, msg⟩] ∧
    (m.error msg short).warnings = m.warnings ∧
    (m.error msg short).url = m.url ∧
    (m.error msg short).headers = m.headers ∧
    (m.error msg short).body = m.body ∧
    (m.warning msg short).warnings = m.warnings ++ [⟨m.body, m.url, m.headers, msg⟩] ∧
    (m.warning msg short).errors = m.errors ∧
    (m.warning msg short).url = m.url ∧
    (m.warning msg short).headers = m.headers ∧
    (m.warning msg short).body = m.body :=
  ⟨rfl, rfl, rfl, rfl, rfl, rfl, rfl, rfl, rfl, rfl⟩

/-- C8: the query-count clamp `translate_query_count` with bounds 1 and 500
maps a string parsing to `n` with `1 ≤ n ≤ 500` to `n`, a non-parsing string
to 1, an integer below 1 to 1 and an integer above 500 to 500; in particular
`clamp("2") = 2`, `clamp("0") = 1`, `clamp("foo") = 1`, `clamp("501") = 500`
and `clamp("") = 1`. -/
theorem translate_query_count_clamp :
    (∀ s n, i32_from_str s = some n →
      ((1 ≤ n ∧ n ≤ 500) → translate_query_count s 1 500 = n) ∧
      (n ≤ 0 → translate_query_count s 1 500 = 1) ∧
      (500 < n → translate_query_count s 1 500 = 500)) ∧
    (∀ s, i32_from_str s = none → translate_query_count s 1 500 = 1) ∧
    translate_query_count "2" 1 500 = 2 ∧
    translate_query_count "0" 1 500 = 1 ∧
    translate_query_count "foo" 1 500 = 1 ∧
    translate_query_count "501" 1 500 = 500 ∧
    translate_query_count "" 1 500 = 1 := by
  refine ⟨?_, ?_, by decide, by decide, by decide, by decide, by decide⟩
  · intro s n h
    refine ⟨fun hn => ?_, fun hn => ?_, fun hn => ?_⟩ <;>
      simp only [translate_query_count, h] <;> split_ifs <;> omega
  · intro s h
    simp [translate_query_count, h]

/-- C8 witness: the clamp theorem applied at the concrete input "7". -/
theorem translate_query_count_clamp_witness : translate_query_count "7" 1 500 = 7 :=
  (translate_query_count_clamp.1 "7" 7 (by decide)).1 (by decide)

/-- C2 counterexample: building the `Unknown` executor *without* a database
name does not succeed — `get_executor` reaches `database.unwrap()` on `None`
and panics, so the claim that `Unknown` never requires a database fails on
the code. -/
theorem get_executor_unknown_no_database_panics :
    TestType.get_executor (TestType.Unknown "foo") none [16] [256] = ROutcome.panicked := by
  decide

/-- C2 (amended): `Unknown`, like every database-backed variant, requires a
resolvable database name: with one supplied, `get_executor` on
`TestType::Unknown` succeeds, and the resulting executor's `verify` records
exactly one error, whose emitted line carries the short label
`Unknown Test`, and no warnings. -/
theorem get_executor_unknown_with_database (name dbname url : String)
    (cls pls : List ℕ) (db : Database) (h : Database.get dbname = some db) :
    TestType.get_executor (TestType.Unknown name) (some dbname) cls pls =
      ROutcome.ok (Executor.unknown db name) ∧
    (Unknown.verify name url).errors.length = 1 ∧
    (Unknown.verify name url).warnings = [] ∧
    (Unknown.verify name url).emitted =
      [⟨EmitKind.error, "Unknown test type: " ++ name, "Unknown Test"⟩] := by
  refine ⟨?_, rfl, rfl, rfl⟩
  simp [TestType.get_executor, h, optionUnwrap, ROutcome.map]

/-- C2 witness: the amended theorem at the concrete database name `mysql`. -/
theorem get_executor_unknown_with_database_witness :
    TestType.get_executor (TestType.Unknown "foo") (some "mysql") [16] [256] =
      ROutcome.ok (Executor.unknown Database.Mysql "foo") ∧
    (Unknown.verify "foo" "http://tfb-server").errors.length = 1 ∧
    (Unknown.verify "foo" "http://tfb-server").warnings = [] ∧
    (Unknown.verify "foo" "http://tfb-server").emitted =
      [⟨EmitKind.error, "Unknown test type: " ++ "foo", "Unknown Test"⟩] :=
  get_executor_unknown_with_database "foo" "mysql" "http://tfb-server" [16] [256]
    Database.Mysql (by decide)

/-- C3: the claim that the body validators never abort fails on the code.
The fortune dynamic-sizing re-check byte-slices `accumulator[..500]`, which
panics — in every build profile — whenever the re-fetched response body
accumulates to fewer than 500 bytes, instead of returning normally with an
`Error` record; `verify_plaintext` on a body shorter than 13 bytes does
return (in release mode), but only because the `usize` subtraction wraps
around, producing the absurd extra-bytes warning shown here alongside the
genuine error (a debug build panics on the same input). -/
theorem fortune_recheck_short_body_panics :
    verify_fortunes_are_dynamically_sized "" Messages.default = ROutcome.panicked ∧
    verify_fortunes_are_dynamically_sized "oops" Messages.default = ROutcome.panicked ∧
    (verify_plaintext "hi" Messages.default).emittedErrorShort "Invalid response body" ∧
    (verify_plaintext "hi" Messages.default).warnings.map MsgRecord.message =
      ["Server is returning 18446744073709551605 more bytes than are required. This may negatively affect benchmark performance."] := by
  refine ⟨by decide, by decide, by decide, by decide⟩

set_option maxRecDepth 1000000 in
/-- C9: fortune HTML normalization is idempotent on the canonical reference —
`normalize_html` maps the `FORTUNES` fixture to itself — and `normalize_text`
collapses the escaping equivalence class of `<script>`: the literal form and
the decimal, zero-padded decimal and hex numeric-reference forms all
normalize to exactly `&lt;script&gt;`. -/
theorem normalize_html_fortunes_roundtrip :
    normalize_html FORTUNES = FORTUNES ∧
    normalize_text "<script>" = "&lt;script&gt;" ∧
    normalize_text "&#60;script&#62;" = "&lt;script&gt;" ∧
    normalize_text "&#060;script&#062;" = "&lt;script&gt;" ∧
    normalize_text "&#x3c;script&#x3e;" = "&lt;script&gt;" := by
  refine ⟨?_, by decide, by decide, by decide, by decide⟩
  exact string_data_eq ((charsEqT_eq_true_iff _ _).mp (by decide))

/-- C5 counterexample: an observed counter delta (5) strictly greater than
the expected value (3) records no Warning at all — both reconciliations
return the accumulator unchanged — refuting the more-than-expected ⇒ Warning
half of the claim. -/
theorem counter_reconciliation_over_report_no_warning :
    verify_queries_count "http://u/q" "world" 0 5 1 1 1 0 3 Messages.default =
      Messages.default ∧
    verify_rows_count "http://u/q" "world" 0 5 1 1 1 0 3 Messages.default =
      Messages.default := by
  exact ⟨by decide, by decide⟩

/-- C5 (amended): in `verify_queries_count` and `verify_rows_count` (with a
clean harness outcome), a delta strictly below the expected value records
exactly the `Too Few Queries` / `Too Few Rows` error, and a delta at or above
the expected value records nothing — in particular more-than-expected
produces no Warning (the source comments deliberately decline to warn). -/
theorem counter_reconciliation_policy (url table : String)
    (before after expected c r : ℤ) (succ : ℕ) (msgs : Messages)
    (hs : (succ : ℤ) = c * r) :
    (after - before < expected →
      verify_queries_count url table before after c r succ 0 expected msgs =
        msgs.error
          ("Only " ++ toString (after - before) ++
            " executed queries in the database out of roughly " ++ toString expected ++
            " expected.")
          "Too Few Queries" ∧
      verify_rows_count url table before after c r succ 0 expected msgs =
        msgs.error
          ("Only " ++ toString (after - before) ++
            " executed rows read in the database out of roughly " ++ toString expected ++
            " expected.")
          "Too Few Rows") ∧
    (expected ≤ after - before →
      verify_queries_count url table before after c r succ 0 expected msgs = msgs ∧
      verify_rows_count url table before after c r succ 0 expected msgs = msgs) := by
  have hc : issue_multi_query_requests_messages url c r succ 0 msgs = msgs := by
    simp [issue_multi_query_requests_messages, hs]
  constructor
  · intro h
    constructor <;> simp [verify_queries_count, verify_rows_count, hc, h]
  · intro h
    constructor <;> simp [verify_queries_count, verify_rows_count, hc, not_lt.mpr h]

/-- C5 witness: the comparison policy applied at delta 1 against expectation
3 (error recorded) and at delta 5 against expectation 3 (nothing recorded). -/
theorem counter_reconciliation_policy_witness :
    (verify_queries_count "u" "world" 0 1 1 1 1 0 3 Messages.default =
      Messages.default.error
        ("Only " ++ toString ((1 : ℤ) - 0) ++
          " executed queries in the database out of roughly " ++ toString (3 : ℤ) ++
          " expected.")
        "Too Few Queries" ∧
     verify_rows_count "u" "world" 0 1 1 1 1 0 3 Messages.default =
      Messages.default.error
        ("Only " ++ toString ((1 : ℤ) - 0) ++
          " executed rows read in the database out of roughly " ++ toString (3 : ℤ) ++
          " expected.")
        "Too Few Rows") ∧
    (verify_queries_count "u" "world" 0 5 1 1 1 0 3 Messages.default = Messages.default ∧
     verify_rows_count "u" "world" 0 5 1 1 1 0 3 Messages.default = Messages.default) :=
  ⟨(counter_reconciliation_policy "u" "world" 0 1 3 1 1 1 Messages.default (by decide)).1
      (by decide),
   (counter_reconciliation_policy "u" "world" 0 5 3 1 1 1 Messages.default (by decide)).2
      (by decide)⟩

/-- C7 counterexample: the object `{"id": 0, "randomnumber": 5}` has an `id`
outside [1, 10000], yet `verify_random_number_object` records no Warning (and
no Error): the code checks only the upper bound of `id`. -/
theorem verify_random_number_object_id_zero_no_warning :
    (verify_random_number_object [("id", Json.num 0), ("randomnumber", Json.num 5)]
        Messages.default).warnings = [] ∧
    (verify_random_number_object [("id", Json.num 0), ("randomnumber", Json.num 5)]
        Messages.default).errors = [] := by
  exact ⟨by decide, by decide⟩

/-- C7 (amended): on a well-formed two-key integer object, an `id` above
10,000 records the out-of-range Warning but an `id` at or below 0 records
nothing (only the upper bound is checked); an integer `randomnumber ≤ 0`
records the greater-than-zero Error and an integer `randomnumber > 10,000`
records the out-of-range Warning. -/
theorem verify_random_number_object_ranges (i rn : ℤ)
    (hi₁ : -9223372036854775808 ≤ i) (hi₂ : i ≤ 9223372036854775807)
    (hr₁ : -9223372036854775808 ≤ rn) (hr₂ : rn ≤ 9223372036854775807) :
    (verify_random_number_object [("id", Json.num i), ("randomnumber", Json.num rn)]
        Messages.default).warnings =
      ((if 10000 < i then
          [⟨"", "", "", "Response key \x27id\x27 should be between 1 and 10,000: " ++ toString i⟩]
        else []) ++
       (if ¬ rn < 1 ∧ 10000 < rn then
          [⟨"", "", "",
            "Response key \x60randomNumber\x60 is over 10,000. This may negatively affect performance by sending extra bytes."⟩]
        else [])) ∧
    (verify_random_number_object [("id", Json.num i), ("randomnumber", Json.num rn)]
        Messages.default).errors =
      (if rn < 1 then
        [⟨"", "", "",
          "Response key \x27randomnumber\x27 must be greater than zero: " ++ toString rn⟩]
       else []) := by
  have hscan :
      scanKeys [("id", Json.num i), ("randomnumber", Json.num rn)]
        ⟨false, "id", false, "randomnumber", 0, ""⟩ =
        ⟨true, "id", true, "randomnumber", 2, ""⟩ := rfl
  by_cases h1 : (10000 : ℤ) < i <;> by_cases h2 : rn < 1 <;> by_cases h3 : (10000 : ℤ) < rn <;>
    simp [verify_random_number_object, hscan, jsonGet, Json.as_i64, Json.as_str,
      hi₁, hi₂, hr₁, hr₂, h1, h2, h3, Messages.default, Messages.error, Messages.warning]

/-- C7 witness: the amended range policy at `id = 12345`, `randomnumber = 0`. -/
theorem verify_random_number_object_ranges_witness :
    (verify_random_number_object
        [("id", Json.num 12345), ("randomnumber", Json.num 0)] Messages.default).warnings =
      ((if (10000 : ℤ) < 12345 then
          [⟨"", "", "",
            "Response key \x27id\x27 should be between 1 and 10,000: " ++ toString (12345 : ℤ)⟩]
        else []) ++
       (if ¬ (0 : ℤ) < 1 ∧ (10000 : ℤ) < 0 then
          [⟨"", "", "",
            "Response key \x60randomNumber\x60 is over 10,000. This may negatively affect performance by sending extra bytes."⟩]
        else [])) ∧
    (verify_random_number_object
        [("id", Json.num 12345), ("randomnumber", Json.num 0)] Messages.default).errors =
      (if (0 : ℤ) < 1 then
        [⟨"", "", "",
          "Response key \x27randomnumber\x27 must be greater than zero: " ++ toString (0 : ℤ)⟩]
       else []) :=
  verify_random_number_object_ranges 12345 0 (by decide) (by decide) (by decide) (by decide)

theorem harness_c1_invariant (W s0 f0 i0 : ℕ) (t : HarnessState)
    (h : HarnessReach (initRep 1 W s0 f0 i0) t) :
    t.remaining = 0 ∧ t.successes = s0 ∧ t.failures = f0 ∧ t.issued = i0 ∧
      ∀ j pc, t.workers.get? j = some pc →
        pc = WorkerPc.atLoad ∨ pc = WorkerPc.finished := by
  induction h with
  | refl =>
    refine ⟨by norm_num [initRep], rfl, rfl, rfl, ?_⟩
    intro j pc hj
    exact Or.inl (List.eq_of_mem_replicate (List.get?_mem hj))
  | tail hsteps hstep ih =>
    obtain ⟨hrem, hs, hf, hi, hw⟩ := ih
    cases hstep with
    | load_pos i hw' hpos =>
      rw [hrem] at hpos
      exact absurd hpos (by norm_num)
    | load_nonpos i hw' hnp =>
      refine ⟨hrem, hs, hf, hi, ?_⟩
      intro j pc hj
      by_cases hij : i = j
      · subst hij
        rw [List.get?_set_eq] at hj
        rw [hw'] at hj
        simp only [Option.map_eq_map, Option.map_some'] at hj
        exact Or.inr (by injection hj with h; exact h.symm)
      · rw [List.get?_set_ne _ _ hij] at hj
        exact hw j pc hj
    | request i ok hw' =>
      exact absurd (hw i _ hw') (by decide)
    | dec i hw' =>
      exact absurd (hw i _ hw') (by decide)

theorem harness_c1_run (W n : ℕ) (out : ℕ × ℕ × ℕ)
    (h : HarnessRun 1 W n out) : out = (0, 0, 0) := by
  induction h with
  | base => rfl
  | step n prev t hrun hreach hdone ih =>
    subst ih
    obtain ⟨-, hs, hf, hi, -⟩ := harness_c1_invariant W _ _ _ t hreach
    simp only [hs, hf, hi]

/-- C1: the exactness claim fails on the code.  The shared counter starts at
`concurrency - 1`, so with concurrency 1 it starts at 0 and *every*
interleaving of every worker pool has each worker's first load observe a
non-positive counter and stop: across `r` repetitions the harness issues 0
requests — not `1 * r` — and the final success plus failure counters total 0,
contradicting both the claim and the code's own `Unexpected Responses`
self-check (which expects `concurrency * repetitions` successes). -/
theorem issue_multi_query_requests_not_exact (W r : ℕ) (out : ℕ × ℕ × ℕ)
    (hr : 1 ≤ r) (h : HarnessRun 1 W r out) :
    out.2.2 = 0 ∧ out.1 + out.2.1 = 0 ∧ ((out.1 + out.2.1 : ℤ) ≠ 1 * r) := by
  have h0 := harness_c1_run W r out h
  subst h0
  refine ⟨rfl, rfl, ?_⟩
  have hr' : (1 : ℤ) ≤ (r : ℤ) := by exact_mod_cast hr
  simp only [Nat.cast_zero, one_mul]
  omega

/-- C1 witness: the theorem applied to the concrete one-worker,
one-repetition execution in which the single worker loads the counter (value
0), stops immediately, and the pool drains with no request issued. -/
theorem issue_multi_query_requests_not_exact_witness :
    ((0, 0, 0) : ℕ × ℕ × ℕ).2.2 = 0 ∧
    ((0, 0, 0) : ℕ × ℕ × ℕ).1 + ((0, 0, 0) : ℕ × ℕ × ℕ).2.1 = 0 ∧
    ((((0, 0, 0) : ℕ × ℕ × ℕ).1 + ((0, 0, 0) : ℕ × ℕ × ℕ).2.1 : ℤ) ≠ 1 * (1 : ℕ)) := by
  have step1 :
      HarnessStep (initRep 1 1 0 0 0)
        { initRep 1 1 0 0 0 with
          workers := (initRep 1 1 0 0 0).workers.set 0 WorkerPc.finished } :=
    HarnessStep.load_nonpos _ 0 rfl (by norm_num [initRep])
  have hreach :
      HarnessReach (initRep 1 1 0 0 0)
        { initRep 1 1 0 0 0 with
          workers := (initRep 1 1 0 0 0).workers.set 0 WorkerPc.finished } :=
    Relation.ReflTransGen.single step1
  have hdone :
      HarnessDone
        { initRep 1 1 0 0 0 with
          workers := (initRep 1 1 0 0 0).workers.set 0 WorkerPc.finished } := by
    intro w hw
    simpa [initRep] using hw
  have hrun : HarnessRun 1 1 1 (0, 0, 0) :=
    HarnessRun.step 0 (0, 0, 0) _ HarnessRun.base hreach hdone
  exact issue_multi_query_requests_not_exact 1 1 (0, 0, 0) (le_refl 1) hrun

theorem bitLenAux_eq (fuel : ℕ) : ∀ n : ℕ, n ≤ fuel → bitLenAux fuel n = Nat.log2 n := by
  induction fuel with
  | zero =>
    intro n hn
    have h0 : n = 0 := by omega
    subst h0
    have hb : bitLenAux 0 0 = 0 := rfl
    rw [hb]
    conv_rhs => rw [Nat.log2]
    norm_num
  | succ fuel ih =>
    intro n hn
    by_cases h1 : n ≤ 1
    · have hb : bitLenAux (fuel + 1) n = 0 := by
        rw [bitLenAux, if_pos h1]
      have hl : Nat.log2 n = 0 := by
        conv_lhs => rw [Nat.log2]
        rw [if_neg (show ¬ n ≥ 2 by omega)]
      rw [hb, hl]
    · have h2 : n ≥ 2 := by omega
      have hlt : n / 2 ≤ fuel := by omega
      have hb : bitLenAux (fuel + 1) n = bitLenAux fuel (n / 2) + 1 := by
        rw [bitLenAux, if_neg h1]
      rw [hb, ih (n / 2) hlt]
      conv_rhs => rw [Nat.log2]
      rw [if_pos h2]

theorem log2m_eq (n : ℕ) : log2m n = Nat.log2 n :=
  bitLenAux_eq n n le_rfl

theorem rne53_bounds (N : ℕ) :
    rne53 N ≤ N + N / 2 ^ 53 ∧ N ≤ rne53 N + N / 2 ^ 53 := by
  by_cases hN : N < 2 ^ 53
  · unfold rne53
    rw [if_pos hN]
    omega
  · have hN' : 2 ^ 53 ≤ N := le_of_not_lt hN
    have hN0 : N ≠ 0 := by omega
    have hs : 53 ≤ N.log2 := (Nat.le_log2 hN0).mpr hN'
    have hpow : 2 ^ N.log2 ≤ N := Nat.log2_self_le hN0
    have hkm1 : N.log2 - 52 - 1 = N.log2 - 53 := by omega
    have hhalf : (2 : ℕ) ^ (N.log2 - 52 - 1) ≤ N / 2 ^ 53 := by
      rw [hkm1]
      calc (2 : ℕ) ^ (N.log2 - 53) = 2 ^ N.log2 / 2 ^ 53 :=
            (Nat.pow_div (by omega) (by norm_num)).symm
        _ ≤ N / 2 ^ 53 := Nat.div_le_div_right hpow
    have hk : N.log2 - 52 = N.log2 - 52 - 1 + 1 := by omega
    have h2 : (2 : ℕ) ^ (N.log2 - 52) = 2 ^ (N.log2 - 52 - 1) * 2 := by
      conv_rhs => rw [← pow_succ]
      rw [← hk]
    have hdm := Nat.div_add_mod N (2 ^ (N.log2 - 52))
    have hmod : N % 2 ^ (N.log2 - 52) < 2 ^ (N.log2 - 52) :=
      Nat.mod_lt _ (by positivity)
    have hg : (N / 2 ^ (N.log2 - 52) + 1) * 2 ^ (N.log2 - 52) =
        2 ^ (N.log2 - 52) * (N / 2 ^ (N.log2 - 52)) + 2 ^ (N.log2 - 52) := by
      ring
    have hq : (N / 2 ^ (N.log2 - 52)) * 2 ^ (N.log2 - 52) =
        2 ^ (N.log2 - 52) * (N / 2 ^ (N.log2 - 52)) := by
      ring
    unfold rne53
    rw [if_neg hN]
    simp only [log2m_eq]
    split_ifs with hcond
    · rcases hcond with hcond | ⟨hcond, -⟩ <;> constructor <;> omega
    · push_neg at hcond
      have hle := hcond.1
      constructor <;> omega

theorem cm_div_le (c : ℕ) : c * mantissa1015 / 2 ^ 53 ≤ c := by
  have h : c * mantissa1015 ≤ c * 2 ^ 53 :=
    Nat.mul_le_mul_left c (by norm_num [mantissa1015])
  calc c * mantissa1015 / 2 ^ 53 ≤ c * 2 ^ 53 / 2 ^ 53 := Nat.div_le_div_right h
    _ = c := Nat.mul_div_cancel c (by positivity)

/-- C4 counterexample: with the raw before-counter at 40 and the raw
after-counter at 138 the uncompensated delta is 98, strictly below
0.985 × 100 = 98.5, yet the compensated comparison passes with no error:
`(40 as f64 * 1.015) as usize = 40` and `(138 as f64 * 1.015) as usize = 140`,
so the compensated delta is exactly the expected 100. -/
theorem verify_updates_count_margin_cex :
    200 * 98 < 197 * 100 ∧
    get_count_of_rows_updated_for_table 40 = 40 ∧
    get_count_of_rows_updated_for_table 138 = 140 ∧
    verify_updates_count "u" "world" 40 138 1 1 1 0 100 Messages.default =
      Messages.default := by
  refine ⟨by norm_num, by decide, by decide, by decide⟩

/-- C4 (amended): with MySQL's 1.5% compensation applied to *both* raw
counter readings (before-count `B`, after-count `B + d`), an uncompensated
delta `d` equal to the expectation always passes, `d = 0.99 × expectation`
always passes, and any `d ≤ 0.985 × expectation − 2` always raises the
`Too Few Rows` error; deltas just below `0.985 × expectation` can pass
because the compensation is floored at each of the two readings (see the
counterexample).  Counter bounds `2^40` keep the double products exact. -/
theorem verify_updates_count_margin (url table : String) (B d E : ℕ) (c r : ℤ)
    (succ : ℕ) (msgs : Messages) (hs : (succ : ℤ) = c * r)
    (hB : B ≤ 2 ^ 40) (hd : d ≤ 2 ^ 40) (hE : E ≤ 2 ^ 40) (hE1 : 1 ≤ E) :
    (d = E → verify_updates_count url table B (B + d) c r succ 0 (E : ℤ) msgs = msgs) ∧
    (100 * d = 99 * E →
      verify_updates_count url table B (B + d) c r succ 0 (E : ℤ) msgs = msgs) ∧
    (200 * d + 400 ≤ 197 * E →
      verify_updates_count url table B (B + d) c r succ 0 (E : ℤ) msgs =
        msgs.error
          ("Only " ++
            toString ((get_count_of_rows_updated_for_table (B + d) : ℤ) -
              (get_count_of_rows_updated_for_table B : ℤ)) ++
            " executed rows updated in the database out of roughly " ++ toString (E : ℤ) ++
            " expected.")
          "Too Few Rows") := by
  have hm : mantissa1015 = 4571153621781053 := rfl
  have hclean : issue_multi_query_requests_messages url c r succ 0 msgs = msgs := by
    simp [issue_multi_query_requests_messages, hs]
  have hb1 := rne53_bounds (B * mantissa1015)
  have hb2 := rne53_bounds ((B + d) * mantissa1015)
  have hdiv1 := cm_div_le B
  have hdiv2 := cm_div_le (B + d)
  have hc1 : get_count_of_rows_updated_for_table B = rne53 (B * mantissa1015) / 2 ^ 52 := rfl
  have hc2 : get_count_of_rows_updated_for_table (B + d) =
      rne53 ((B + d) * mantissa1015) / 2 ^ 52 := rfl
  rw [hm] at hb1 hb2 hdiv1 hdiv2 hc1 hc2
  refine ⟨?_, ?_, ?_⟩
  · intro hde
    have hle : E + get_count_of_rows_updated_for_table B ≤
        get_count_of_rows_updated_for_table (B + d) := by
      omega
    have hcond : ¬ ((get_count_of_rows_updated_for_table (B + d) : ℤ) -
        (get_count_of_rows_updated_for_table B : ℤ) < (E : ℤ)) := by
      omega
    simp only [verify_updates_count, hclean, if_neg hcond]
  · intro hde
    have hle : E + get_count_of_rows_updated_for_table B ≤
        get_count_of_rows_updated_for_table (B + d) := by
      omega
    have hcond : ¬ ((get_count_of_rows_updated_for_table (B + d) : ℤ) -
        (get_count_of_rows_updated_for_table B : ℤ) < (E : ℤ)) := by
      omega
    simp only [verify_updates_count, hclean, if_neg hcond]
  · intro hde
    have hlt : get_count_of_rows_updated_for_table (B + d) <
        get_count_of_rows_updated_for_table B + E := by
      omega
    have hcond : (get_count_of_rows_updated_for_table (B + d) : ℤ) -
        (get_count_of_rows_updated_for_table B : ℤ) < (E : ℤ) := by
      omega
    simp only [verify_updates_count, hclean, if_pos hcond]

/-- C4 witness: the amended margin policy at before-count 7, expectation 100,
with delta 100 (equal: passes), delta 99 (0.99 ×: passes) and delta 90
(≤ 0.985 × 100 − 2: fails). -/
theorem verify_updates_count_margin_witness :
    verify_updates_count "u" "world" 7 (7 + 100) 1 1 1 0 (100 : ℤ) Messages.default =
      Messages.default ∧
    verify_updates_count "u" "world" 7 (7 + 99) 1 1 1 0 (100 : ℤ) Messages.default =
      Messages.default ∧
    verify_updates_count "u" "world" 7 (7 + 90) 1 1 1 0 (100 : ℤ) Messages.default =
      Messages.default.error
        ("Only " ++
          toString ((get_count_of_rows_updated_for_table (7 + 90) : ℤ) -
            (get_count_of_rows_updated_for_table 7 : ℤ)) ++
          " executed rows updated in the database out of roughly " ++ toString ((100 : ℕ) : ℤ) ++
          " expected.")
        "Too Few Rows" :=
  ⟨(verify_updates_count_margin "u" "world" 7 100 100 1 1 1 Messages.default (by decide)
      (by norm_num) (by norm_num) (by norm_num) (by norm_num)).1 rfl,
   (verify_updates_count_margin "u" "world" 7 99 100 1 1 1 Messages.default (by decide)
      (by norm_num) (by norm_num) (by norm_num) (by norm_num)).2.1 (by norm_num),
   (verify_updates_count_margin "u" "world" 7 90 100 1 1 1 Messages.default (by decide)
      (by norm_num) (by norm_num) (by norm_num) (by norm_num)).2.2 (by norm_num)⟩

/-- C6 counterexample: the cache-staleness probe compares the *parsed* dates,
not the raw header bytes.  Two byte-distinct `Date` values denoting the same
instant (`+0000` vs `+0100` spellings) do trigger the `Cached Date` error,
and two byte-identical but unparsable values do not — refuting both
directions of the byte-identical characterization. -/
theorem cached_date_distinct_strings_cex :
    ("Sun, 07 Jan 2024 12:00:00 +0000" ≠ "Sun, 07 Jan 2024 13:00:00 +0100") ∧
    (verify_headers_internal
        [("Server", "X"), ("Date", "Sun, 07 Jan 2024 12:00:00 +0000"),
          ("Content-Type", "text/plain"), ("Content-Length", "13")]
        "http://u" ContentType.Plaintext true
        (some [("Date", "Sun, 07 Jan 2024 13:00:00 +0100")])
        Messages.default).emittedErrorShort "Cached Date" ∧
    ¬ (verify_headers_internal
        [("Server", "X"), ("Date", "garbage"),
          ("Content-Type", "text/plain"), ("Content-Length", "13")]
        "http://u" ContentType.Plaintext true
        (some [("Date", "garbage")])
        Messages.default).emittedErrorShort "Cached Date" := by
  refine ⟨by decide, by decide, by decide⟩

/-- C6 (amended): with `should_retest` set and the re-fetch succeeding, the
`Cached Date` error is raised if and only if both observed `Date` values
parse under the RFC-2822 format and denote the same instant — byte-identical
parsable values trigger it, but so does any byte-distinct pair denoting the
same instant, and unparsable values never do. -/
theorem cached_date_policy (sv d1 d2 ct cl url : String) (should_be : ContentType) :
    (verify_headers_internal
        [("Server", sv), ("Date", d1), ("Content-Type", ct), ("Content-Length", cl)]
        url should_be true (some [("Date", d2)]) Messages.default).emittedErrorShort
      "Cached Date" ↔
      ∃ t, parse_rfc2822 d1 = some t ∧ parse_rfc2822 d2 = some t := by
  have hS : headersContainsKey
      [("Server", sv), ("Date", d1), ("Content-Type", ct), ("Content-Length", cl)] "Server" =
      true := rfl
  have hD : headersContainsKey
      [("Server", sv), ("Date", d1), ("Content-Type", ct), ("Content-Length", cl)] "Date" =
      true := rfl
  have hCT : headersContainsKey
      [("Server", sv), ("Date", d1), ("Content-Type", ct), ("Content-Length", cl)]
      "Content-Type" = true := rfl
  have hCL : headersContainsKey
      [("Server", sv), ("Date", d1), ("Content-Type", ct), ("Content-Length", cl)]
      "Content-Length" = true := rfl
  have hgD : headersGet
      [("Server", sv), ("Date", d1), ("Content-Type", ct), ("Content-Length", cl)] "Date" =
      some d1 := rfl
  have hgCT : headersGet
      [("Server", sv), ("Date", d1), ("Content-Type", ct), ("Content-Length", cl)]
      "Content-Type" = some ct := rfl
  have hg2 : headersGet [("Date", d2)] "Date" = some d2 := rfl
  simp only [verify_headers_internal, hS, hD, hCT, hCL, hgD, hgCT, hg2, true_or, or_true,
    not_true, Bool.true_eq_false, if_false, ite_false, ite_true]
  norm_num
  rcases hp1 : parse_rfc2822 d1 with _ | t1
  · simp only [hp1]
    cases should_be <;> split_ifs <;>
      simp [Messages.emittedErrorShort, Messages.default, Messages.error, Messages.warning]
  · simp only [hp1]
    rcases hp2 : parse_rfc2822 d2 with _ | t2
    · simp only [hp2]
      cases should_be <;> split_ifs <;>
        simp [Messages.emittedErrorShort, Messages.default, Messages.error, Messages.warning]
    · simp only [hp2]
      by_cases ht : t2 = t1
      · subst ht
        cases should_be <;> split_ifs <;> (try omega) <;>
          simp [Messages.emittedErrorShort, Messages.default, Messages.error, Messages.warning]
      · have ht' : ¬ (∃ t, some t1 = some t ∧ some t2 = some t) := by
          rintro ⟨t, h1, h2⟩
          exact ht (by injection h1 with h1; injection h2 with h2; rw [h1, h2])
        cases should_be <;> split_ifs <;>
          simp [Messages.emittedErrorShort, Messages.default, Messages.error,
            Messages.warning, ht, ht']

end TFB
